import Mathlib

/-!
Shallow embedding of the StockInformer four-stage investment-planning
pipeline (src/code/investment_agent/agent.py, tools.py, prompts.py).

Modelling conventions:
* Python floats are modelled as rationals (ℚ).
* An LLM call is modelled by an oracle `Nat → LLMResult α` giving the
  outcome of each attempt: `exn` for a raised exception, `resp none` for a
  call that returned `None`, `resp (some v)` for a returned value `v`.
* Pydantic models become structures; the `list[dict]` payloads carry the
  same fields as the corresponding pydantic model, so one structure
  represents both.
* Each step function returns a `StageRun`: the `Except`-result (an
  `error` models a raised exception escaping the step), the number of
  LLM calls issued, and the number of fallback-producer invocations.
-/

/-- A company research entry (pydantic model `CompanyResearch`; also the
shape of the dicts stored in `state.research_results`). -/
structure CompanyResearch where
  name : String
  risk_factor : String
  explanation : String
deriving DecidableEq, Repr

/-- A portfolio entry (pydantic model `PortfolioAllocation`; also the shape
of the dicts stored in `state.portfolio_plan["companies"]`). -/
structure PortfolioAllocation where
  company_name : String
  allocation_percentage : ℚ
  holding_period : Option String
deriving DecidableEq, Repr

/-- Pydantic model `PortfolioPlan` / the dict stored in
`state.portfolio_plan`. -/
structure PortfolioPlan where
  companies : List PortfolioAllocation
  total_allocation : ℚ
deriving DecidableEq, Repr

/-- The accumulating pipeline state (`InvestmentAgentState`). The
`messages` channel is orthogonal to every step's logic and is omitted. -/
structure InvestmentAgentState where
  risk_level : String
  industry : Option String
  investment_amount : ℚ
  time_horizon : String
  research_results : Option (List CompanyResearch) := none
  portfolio_plan : Option PortfolioPlan := none
  investment_rationale : Option String := none
  investment_plan : Option String := none
deriving DecidableEq, Repr

/-- Outcome of one `model.ainvoke` attempt: `exn` models a raised
exception (caught by the step's `except` clause), `resp none` models a
returned `None`, `resp (some v)` a returned value. -/
inductive LLMResult (α : Type) where
  | exn : LLMResult α
  | resp : Option α → LLMResult α
deriving DecidableEq, Repr

/-- `_MAX_LLM_RETRIES` from agent.py. -/
def _MAX_LLM_RETRIES : Nat := 3

/-- The observable run of one step: functional result (`error` = the step
raised), number of LLM calls made, number of fallback-producer runs. -/
structure StageRun where
  result : Except String InvestmentAgentState
  llm_calls : Nat
  fallback_calls : Nat
deriving Repr

/-- The first `_MAX_LLM_RETRIES` oracle outcomes, in attempt order
(`for count in range(_MAX_LLM_RETRIES)`). -/
def attemptsOf {α : Type} (oracle : Nat → LLMResult α) : List (LLMResult α) :=
  (List.range _MAX_LLM_RETRIES).map oracle

/-- Add one LLM call to a run's tally (the call made by the current loop
iteration, before recursing into the remaining iterations). -/
def StageRun.bump (r : StageRun) : StageRun :=
  { r with llm_calls := r.llm_calls + 1 }

/-- Python truthiness-based defaulting `state.industry or "technology"`:
`None` and the empty string both fall back to the default. -/
def pyOr (v : Option String) (default : String) : String :=
  match v with
  | none => default
  | some s => if s = "" then default else s

/-- Search outcome for `tools.search_companies`: either the transport
fails (`SearchUnavailable`, i.e. `serpapi.run` raises) or a formatted
result string is returned. -/
inductive SearchOutcome where
  | unavailable : SearchOutcome
  | results : String → SearchOutcome
deriving DecidableEq, Repr

/-- The stage-1 search query string
`f"best {industry} stocks to invest 2025 top companies"` with
`industry = state.industry or "technology"`. -/
def step1_search_query (st : InvestmentAgentState) : String :=
  "best " ++ pyOr st.industry "technology" ++ " stocks to invest 2025 top companies"

/-- `company_research_prompt.format(...)` from prompts.py: the stage-1
system prompt with the four placeholders interpolated. -/
def company_research_prompt_format (industry risk_level time_horizon search_results : String) : String :=
  "\nYou are an expert investment analyst. Your goal is to analyze search results and identify the top 10 companies suitable for investment.\n\nIndustry Focus: "
    ++ industry
    ++ "\nRisk Level: " ++ risk_level
    ++ "\nTime Horizon: " ++ time_horizon
    ++ "\n\nSearch Results:\n" ++ search_results
    ++ "\n\nBased on the search results above, identify the top 10 companies that would be suitable for a "
    ++ risk_level ++ " risk investor with a " ++ time_horizon
    ++ " investment horizon in the " ++ industry
    ++ " industry.\n\nFor each company, provide:\n1. Company name (full legal name)\n2. Risk factor (Low, Medium, or High)\n3. Explanation of why this company might be a good investment for the specified risk profile and time horizon\n\nFocus on companies with:\n- Strong market position and competitive advantages\n- Consistent financial performance\n- Growth potential aligned with the time horizon\n- Risk profile appropriate for the investor\x27s risk tolerance\n- Industry relevance and future prospects\n\nReturn exactly 10 companies, prioritizing quality over quantity if fewer than 10 suitable companies are found.\n\nReturn the companies as a list in the \x27companies\x27 field.\n"

/-- The stage-1 system prompt as built in `step_1_research_companies`:
`company_research_prompt.format(industry=state.industry or "technology", ...)`. -/
def step1_system_prompt (st : InvestmentAgentState) (search_results : String) : String :=
  company_research_prompt_format (pyOr st.industry "technology")
    st.risk_level st.time_horizon search_results

/-- The retry loop of `step_1_research_companies` over the remaining
attempt outcomes. A response is accepted iff it is non-`None` and its
`companies` list is non-empty; every other outcome (exception, `None`
response, empty list) just moves to the next attempt. On exhaustion the
step raises `RuntimeError`. -/
def step1_go (st : InvestmentAgentState) :
    List (LLMResult (List CompanyResearch)) → StageRun
  | [] =>
      { result := .error "Failed to process company research after %d attempts."
        llm_calls := 0, fallback_calls := 0 }
  | o :: rest =>
      match o with
      | .resp (some companies) =>
          if companies.length > 0 then
            { result := .ok { st with research_results := some companies }
              llm_calls := 1, fallback_calls := 0 }
          else
            (step1_go st rest).bump
      | .resp none => (step1_go st rest).bump
      | .exn => (step1_go st rest).bump

/-- `step_1_research_companies`: one search call first (a raising search
propagates immediately, before any LLM call), then the retry loop. -/
def step_1_research_companies (st : InvestmentAgentState)
    (search : SearchOutcome)
    (oracle : Nat → LLMResult (List CompanyResearch)) : StageRun :=
  match search with
  | .unavailable =>
      { result := .error "SearchUnavailable", llm_calls := 0, fallback_calls := 0 }
  | .results _ => step1_go st (attemptsOf oracle)

/-- The stage-2 fallback producer: take the first five research entries,
give each an equal `100.0 / count` share and the literal holding period,
and set `total_allocation` to the literal `100.0`. -/
def step2_fallback (research_results : List CompanyResearch) : PortfolioPlan :=
  let companies_to_allocate := research_results.take 5
  let allocation_per_company : ℚ := 100 / (companies_to_allocate.length : ℚ)
  { companies := companies_to_allocate.map (fun company =>
      { company_name := company.name
        allocation_percentage := allocation_per_company
        holding_period := some "6-12 months" })
    total_allocation := 100 }

/-- The retry loop of `step_2_build_portfolio`. A non-`None` response
with a non-empty `companies` list is accepted; a non-`None` response with
an empty `companies` list triggers the fallback immediately; a `None`
response falls through to the next attempt; an exception triggers the
fallback only on the last attempt (`count == _MAX_LLM_RETRIES - 1`). -/
def step2_go (st : InvestmentAgentState) (research_results : List CompanyResearch)
    (count : Nat) : List (LLMResult PortfolioPlan) → StageRun
  | [] =>
      { result := .error "Failed to build portfolio plan after %d attempts."
        llm_calls := 0, fallback_calls := 0 }
  | o :: rest =>
      match o with
      | .resp (some portfolio) =>
          if portfolio.companies.length > 0 then
            let plan : PortfolioPlan :=
              { companies := portfolio.companies.map (fun company =>
                  { company_name := company.company_name
                    allocation_percentage := company.allocation_percentage
                    holding_period := company.holding_period })
                total_allocation := portfolio.total_allocation }
            { result := .ok { st with portfolio_plan := some plan }
              llm_calls := 1, fallback_calls := 0 }
          else
            { result := .ok { st with portfolio_plan := some (step2_fallback research_results) }
              llm_calls := 1, fallback_calls := 1 }
      | .resp none => (step2_go st research_results (count + 1) rest).bump
      | .exn =>
          if count = _MAX_LLM_RETRIES - 1 then
            { result := .ok { st with portfolio_plan := some (step2_fallback research_results) }
              llm_calls := 1, fallback_calls := 1 }
          else
            (step2_go st research_results (count + 1) rest).bump

/-- `step_2_build_portfolio`: fail fast when `not state.research_results`
(i.e. the field is `None` or the empty list), else run the retry loop. -/
def step_2_build_portfolio (st : InvestmentAgentState)
    (oracle : Nat → LLMResult PortfolioPlan) : StageRun :=
  match st.research_results with
  | none =>
      { result := .error "No research results available for portfolio planning"
        llm_calls := 0, fallback_calls := 0 }
  | some [] =>
      { result := .error "No research results available for portfolio planning"
        llm_calls := 0, fallback_calls := 0 }
  | some research_results => step2_go st research_results 0 (attemptsOf oracle)

/-- Python `str.lower()`, character-wise (structurally recursive so that
proofs can evaluate it). -/
def pyLower (s : String) : String :=
  String.mk (s.data.map Char.toLower)

/-- Whitespace test for Python `str.strip()` (the whitespace occurring in
this program is covered). -/
def wsChar (c : Char) : Bool :=
  c == ' ' || c == '\n' || c == '\t' || c == '\r'

/-- Python `str.strip()`: drop whitespace from both ends (structurally
recursive so that proofs can evaluate it). -/
def pyStrip (s : String) : String :=
  String.mk (((s.data.dropWhile wsChar).reverse.dropWhile wsChar).reverse)

/-- Whether `pat` occurs as a contiguous substring of `l`. -/
def subOccurs (pat : List Char) : List Char → Bool
  | [] => decide (pat = [])
  | c :: cs => pat.isPrefixOf (c :: cs) || subOccurs pat cs

/-- Decimal digits of the fractional part `num/den` (0 ≤ num < den), up to
`fuel` digits, stopping when the remainder reaches zero. Used to model
Python's `str(float)` for the exact rationals appearing in this model. -/
def fracDigits (fuel num den : Nat) : String :=
  match fuel with
  | 0 => ""
  | f + 1 =>
      if num = 0 then ""
      else toString (num * 10 / den) ++ fracDigits f (num * 10 % den) den

/-- Model of Python's `str`/f-string rendering of a float, on the exact
rational carried by the model: integers render as `k.0`, other values with
their decimal expansion (up to 17 digits). -/
def pyFloat (q : ℚ) : String :=
  let sign := if q < 0 then "-" else ""
  let n := q.num.natAbs
  let ip := n / q.den
  let fr := n % q.den
  if fr = 0 then sign ++ toString ip ++ ".0"
  else sign ++ toString ip ++ "." ++ fracDigits 17 fr q.den

/-- Insert thousands separators into a reversed digit list (`k` digits
already emitted). -/
def commaRev : List Char → Nat → List Char
  | [], _ => []
  | c :: cs, k =>
      if k % 3 = 0 ∧ k ≠ 0 then ',' :: c :: commaRev cs (k + 1)
      else c :: commaRev cs (k + 1)

/-- Group a digit string with commas every three digits from the right. -/
def commaGroup (s : String) : String :=
  String.mk (commaRev s.data.reverse 0).reverse

/-- Left-pad a two-digit cents value with a zero. -/
def twoPad (n : Nat) : String :=
  if n < 10 then "0" ++ toString n else toString n

/-- Model of Python's format spec `:,.2f` on the exact rational:
comma-grouped integer part and two decimals (rounding modelled as
round-half-up on the exact value). -/
def fmtComma2 (q : ℚ) : String :=
  let sign := if q < 0 then "-" else ""
  let cents := (q.num.natAbs * 100 + q.den / 2) / q.den
  sign ++ commaGroup (toString (cents / 100)) ++ "." ++ twoPad (cents % 100)

/-- The fixed header of the stage-3 fallback rationale (the f-string
assigned to `fallback_rationale` before the per-company loop). -/
def step3_header (st : InvestmentAgentState) : String :=
  "\n## Investment Rationale\n\nBased on our analysis, we have selected the following companies for your "
    ++ pyLower st.risk_level
    ++ "-risk investment portfolio of $" ++ fmtComma2 st.investment_amount
    ++ " over a " ++ st.time_horizon ++ " timeframe:\n\n"

/-- The text one portfolio allocation contributes to the stage-3 fallback
rationale: a paragraph joining the allocation with the research entry
matched by exact name equality, and nothing at all when no research entry
matches (the source has no else-branch in this loop). -/
def step3_paragraph (research_results : List CompanyResearch)
    (company : PortfolioAllocation) : String :=
  match research_results.find? (fun c => c.name == company.company_name) with
  | some research_data =>
      "\n### " ++ company.company_name ++ " ("
        ++ pyFloat company.allocation_percentage ++ "% allocation)\n"
        ++ research_data.explanation ++ "\n\n"
  | none => ""

/-- The stage-3 fallback producer: header plus the per-company
contributions, stripped. -/
def step3_fallback (st : InvestmentAgentState)
    (research_results : List CompanyResearch) (plan : PortfolioPlan) : String :=
  pyStrip (step3_header st
    ++ String.join (plan.companies.map (step3_paragraph research_results)))

/-- The retry loop of `step_3_generate_rationale`. A response is accepted
iff it is non-`None` with non-empty `content`; a `None` response or empty
content falls through without raising; an exception triggers the fallback
on the last attempt. In the fallback, the source iterates
`state.research_results` directly inside `next(...)`; when that field is
`None` and the plan has at least one company this raises a `TypeError`
which escapes the step, modelled as an error result. -/
def step3_go (st : InvestmentAgentState) (plan : PortfolioPlan) (count : Nat) :
    List (LLMResult String) → StageRun
  | [] =>
      { result := .error "Failed to generate investment rationale after %d attempts."
        llm_calls := 0, fallback_calls := 0 }
  | o :: rest =>
      match o with
      | .resp (some content) =>
          if content ≠ "" then
            { result := .ok { st with investment_rationale := some content }
              llm_calls := 1, fallback_calls := 0 }
          else
            (step3_go st plan (count + 1) rest).bump
      | .resp none => (step3_go st plan (count + 1) rest).bump
      | .exn =>
          if count = _MAX_LLM_RETRIES - 1 then
            match st.research_results, plan.companies with
            | none, _ :: _ =>
                { result := .error "TypeError: NoneType research_results in stage-3 fallback"
                  llm_calls := 1, fallback_calls := 1 }
            | none, [] =>
                { result := .ok { st with investment_rationale := some (step3_fallback st [] plan) }
                  llm_calls := 1, fallback_calls := 1 }
            | some research_results, _ =>
                { result := .ok { st with investment_rationale := some (step3_fallback st research_results plan) }
                  llm_calls := 1, fallback_calls := 1 }
          else
            (step3_go st plan (count + 1) rest).bump

/-- `step_3_generate_rationale`: fail fast when `not state.portfolio_plan`,
else run the retry loop. -/
def step_3_generate_rationale (st : InvestmentAgentState)
    (oracle : Nat → LLMResult String) : StageRun :=
  match st.portfolio_plan with
  | none =>
      { result := .error "No portfolio plan available for rationale generation"
        llm_calls := 0, fallback_calls := 0 }
  | some plan => step3_go st plan 0 (attemptsOf oracle)

/-- The fixed header of the stage-4 fallback report, up to and including
the table header rows. -/
def step4_header (st : InvestmentAgentState) : String :=
  "\n# Personalized Investment Plan\n\n## Executive Summary\nThis investment plan has been created for a "
    ++ pyLower st.risk_level ++ "-risk investor with $"
    ++ fmtComma2 st.investment_amount ++ " to invest over a "
    ++ st.time_horizon
    ++ " timeframe.\n\n## Portfolio Allocation\n\n| Company | Allocation | Amount | Holding Period | Risk Level |\n|---------|------------|--------|----------------|------------|\n"

/-- One table row of the stage-4 fallback report. Both step-2 paths store
a `holding_period` key, so `company.get("holding_period", "6-12 months")`
returns the stored value; a stored `None` renders as the string `None`.
The risk level comes from the research entry matched by exact name
equality, defaulting to `Medium`. -/
def step4_row (st : InvestmentAgentState) (research_results : List CompanyResearch)
    (company : PortfolioAllocation) : String :=
  let amount := company.allocation_percentage / 100 * st.investment_amount
  let holding_period :=
    match company.holding_period with
    | some h => h
    | none => "None"
  let risk_level :=
    match research_results.find? (fun c => c.name == company.company_name) with
    | some research_data => research_data.risk_factor
    | none => "Medium"
  "| " ++ company.company_name ++ " | " ++ pyFloat company.allocation_percentage
    ++ "% | $" ++ fmtComma2 amount ++ " | " ++ holding_period ++ " | "
    ++ risk_level ++ " |\n"

/-- The trailer of the stage-4 fallback report: rationale section and the
static risk-disclosure paragraph. -/
def step4_tail (st : InvestmentAgentState) (rationale : String) : String :=
  "\n\n## Investment Rationale\n" ++ rationale
    ++ "\n\n## Risk Considerations\nThis portfolio is designed for "
    ++ pyLower st.risk_level
    ++ "-risk tolerance and should be reviewed regularly.\n"

/-- The stage-4 fallback producer: header, one row per portfolio company,
trailer, stripped. -/
def step4_fallback (st : InvestmentAgentState)
    (research_results : List CompanyResearch) (plan : PortfolioPlan)
    (rationale : String) : String :=
  pyStrip (step4_header st
    ++ String.join (plan.companies.map (step4_row st research_results))
    ++ step4_tail st rationale)

/-- The retry loop of `step_4_format_final_report`; same acceptance
criterion and exception handling as stage 3, including the `TypeError`
when the fallback iterates a `None` `research_results` with a non-empty
portfolio. -/
def step4_go (st : InvestmentAgentState) (plan : PortfolioPlan)
    (rationale : String) (count : Nat) : List (LLMResult String) → StageRun
  | [] =>
      { result := .error "Failed to format final report after %d attempts."
        llm_calls := 0, fallback_calls := 0 }
  | o :: rest =>
      match o with
      | .resp (some content) =>
          if content ≠ "" then
            { result := .ok { st with investment_plan := some content }
              llm_calls := 1, fallback_calls := 0 }
          else
            (step4_go st plan rationale (count + 1) rest).bump
      | .resp none => (step4_go st plan rationale (count + 1) rest).bump
      | .exn =>
          if count = _MAX_LLM_RETRIES - 1 then
            match st.research_results, plan.companies with
            | none, _ :: _ =>
                { result := .error "TypeError: NoneType research_results in stage-4 fallback"
                  llm_calls := 1, fallback_calls := 1 }
            | none, [] =>
                { result := .ok { st with investment_plan := some (step4_fallback st [] plan rationale) }
                  llm_calls := 1, fallback_calls := 1 }
            | some research_results, _ =>
                { result := .ok { st with investment_plan := some (step4_fallback st research_results plan rationale) }
                  llm_calls := 1, fallback_calls := 1 }
          else
            (step4_go st plan rationale (count + 1) rest).bump

/-- `step_4_format_final_report`: fail fast when
`not state.portfolio_plan or not state.investment_rationale` (either field
`None`, or the rationale the empty string), else run the retry loop. -/
def step_4_format_final_report (st : InvestmentAgentState)
    (oracle : Nat → LLMResult String) : StageRun :=
  match st.portfolio_plan, st.investment_rationale with
  | none, _ =>
      { result := .error "Missing portfolio plan or investment rationale for final report"
        llm_calls := 0, fallback_calls := 0 }
  | some _, none =>
      { result := .error "Missing portfolio plan or investment rationale for final report"
        llm_calls := 0, fallback_calls := 0 }
  | some plan, some rationale =>
      if rationale = "" then
        { result := .error "Missing portfolio plan or investment rationale for final report"
          llm_calls := 0, fallback_calls := 0 }
      else step4_go st plan rationale 0 (attemptsOf oracle)

/-- Observable run of the whole pipeline: result and total number of LLM
(generation) calls across all stages. -/
structure PipelineRun where
  result : Except String InvestmentAgentState
  llm_calls : Nat
deriving Repr

/-- The compiled workflow: stages 1→2→3→4 strictly in order on one state;
a raising stage aborts the run. -/
def plan (st : InvestmentAgentState) (search : SearchOutcome)
    (oracle1 : Nat → LLMResult (List CompanyResearch))
    (oracle2 : Nat → LLMResult PortfolioPlan)
    (oracle3 : Nat → LLMResult String)
    (oracle4 : Nat → LLMResult String) : PipelineRun :=
  let r1 := step_1_research_companies st search oracle1
  match r1.result with
  | .error e => { result := .error e, llm_calls := r1.llm_calls }
  | .ok st1 =>
    let r2 := step_2_build_portfolio st1 oracle2
    match r2.result with
    | .error e => { result := .error e, llm_calls := r1.llm_calls + r2.llm_calls }
    | .ok st2 =>
      let r3 := step_3_generate_rationale st2 oracle3
      match r3.result with
      | .error e =>
          { result := .error e
            llm_calls := r1.llm_calls + r2.llm_calls + r3.llm_calls }
      | .ok st3 =>
        let r4 := step_4_format_final_report st3 oracle4
        { result := r4.result
          llm_calls := r1.llm_calls + r2.llm_calls + r3.llm_calls + r4.llm_calls }

/-- The three attempt outcomes, unfolded. -/
theorem attemptsOf_eq {α : Type} (oracle : Nat → LLMResult α) :
    attemptsOf oracle = [oracle 0, oracle 1, oracle 2] := rfl

/-- The attempt list always has length `_MAX_LLM_RETRIES`. -/
theorem attemptsOf_length {α : Type} (oracle : Nat → LLMResult α) :
    (attemptsOf oracle).length = _MAX_LLM_RETRIES := rfl

theorem StageRun.bump_result (r : StageRun) : r.bump.result = r.result := rfl

theorem StageRun.bump_fb (r : StageRun) : r.bump.fallback_calls = r.fallback_calls := rfl

theorem StageRun.bump_calls (r : StageRun) : r.bump.llm_calls = r.llm_calls + 1 := rfl

/-- Claim C2: the stage-2 fallback producer yields exactly
`min 5 n` companies — the first `min 5 n` research entries in order —
each with allocation `100 / min 5 n` and holding period `6-12 months`,
and reports `total_allocation` as the literal `100`. -/
theorem step2_fallback_spec (research : List CompanyResearch)
    (h : research ≠ []) :
    (step2_fallback research).companies.length = min 5 research.length ∧
    (step2_fallback research).companies
      = (research.take 5).map (fun c =>
          { company_name := c.name
            allocation_percentage := (100 : ℚ) / ((min 5 research.length : Nat) : ℚ)
            holding_period := some "6-12 months" }) ∧
    (∀ a ∈ (step2_fallback research).companies,
        a.allocation_percentage = (100 : ℚ) / ((min 5 research.length : Nat) : ℚ) ∧
        a.holding_period = some "6-12 months") ∧
    (step2_fallback research).total_allocation = 100 := by
  have hlen : (research.take 5).length = min 5 research.length :=
    List.length_take 5 research
  refine ⟨?_, ?_, ?_, rfl⟩
  · simp [step2_fallback, hlen]
  · simp [step2_fallback, hlen]
  · intro a ha
    simp only [step2_fallback, List.mem_map] at ha
    obtain ⟨c, _, rfl⟩ := ha
    exact ⟨by rw [hlen], rfl⟩

/-- Witness for C2 at a concrete seven-entry research list. -/
theorem step2_fallback_spec_witness :
    (step2_fallback
        [⟨"A", "Low", "a"⟩, ⟨"B", "Low", "b"⟩, ⟨"C", "Low", "c"⟩,
         ⟨"D", "Low", "d"⟩, ⟨"E", "Low", "e"⟩, ⟨"F", "Low", "f"⟩,
         ⟨"G", "Low", "g"⟩]).companies.length
      = min 5 ([⟨"A", "Low", "a"⟩, ⟨"B", "Low", "b"⟩, ⟨"C", "Low", "c"⟩,
         ⟨"D", "Low", "d"⟩, ⟨"E", "Low", "e"⟩, ⟨"F", "Low", "f"⟩,
         ⟨"G", "Low", "g"⟩] : List CompanyResearch).length ∧
    (step2_fallback
        [⟨"A", "Low", "a"⟩, ⟨"B", "Low", "b"⟩, ⟨"C", "Low", "c"⟩,
         ⟨"D", "Low", "d"⟩, ⟨"E", "Low", "e"⟩, ⟨"F", "Low", "f"⟩,
         ⟨"G", "Low", "g"⟩]).companies
      = (([⟨"A", "Low", "a"⟩, ⟨"B", "Low", "b"⟩, ⟨"C", "Low", "c"⟩,
         ⟨"D", "Low", "d"⟩, ⟨"E", "Low", "e"⟩, ⟨"F", "Low", "f"⟩,
         ⟨"G", "Low", "g"⟩] : List CompanyResearch).take 5).map (fun c =>
          { company_name := c.name
            allocation_percentage := (100 : ℚ) / ((min 5 7 : Nat) : ℚ)
            holding_period := some "6-12 months" }) ∧
    (∀ a ∈ (step2_fallback
        [⟨"A", "Low", "a"⟩, ⟨"B", "Low", "b"⟩, ⟨"C", "Low", "c"⟩,
         ⟨"D", "Low", "d"⟩, ⟨"E", "Low", "e"⟩, ⟨"F", "Low", "f"⟩,
         ⟨"G", "Low", "g"⟩]).companies,
        a.allocation_percentage = (100 : ℚ) / ((min 5 7 : Nat) : ℚ) ∧
        a.holding_period = some "6-12 months") ∧
    (step2_fallback
        [⟨"A", "Low", "a"⟩, ⟨"B", "Low", "b"⟩, ⟨"C", "Low", "c"⟩,
         ⟨"D", "Low", "d"⟩, ⟨"E", "Low", "e"⟩, ⟨"F", "Low", "f"⟩,
         ⟨"G", "Low", "g"⟩]).total_allocation = 100 :=
  step2_fallback_spec
    [⟨"A", "Low", "a"⟩, ⟨"B", "Low", "b"⟩, ⟨"C", "Low", "c"⟩,
     ⟨"D", "Low", "d"⟩, ⟨"E", "Low", "e"⟩, ⟨"F", "Low", "f"⟩,
     ⟨"G", "Low", "g"⟩] (by decide)

/-- Claim C3: in stage 2, a structured response whose `companies`
collection is present but empty triggers the fallback producer
immediately: the stage returns the fallback state after exactly one LLM
call (no second or third attempt is consumed). -/
theorem step2_empty_short_circuit (st : InvestmentAgentState)
    (research : List CompanyResearch) (p : PortfolioPlan)
    (oracle : Nat → LLMResult PortfolioPlan)
    (hres : st.research_results = some research) (hne : research ≠ [])
    (h0 : oracle 0 = LLMResult.resp (some p)) (hemp : p.companies = []) :
    step_2_build_portfolio st oracle =
      { result := Except.ok { st with portfolio_plan := some (step2_fallback research) }
        llm_calls := 1, fallback_calls := 1 } := by
  obtain ⟨c, rs, rfl⟩ : ∃ c rs, research = c :: rs := by
    cases research with
    | nil => exact absurd rfl hne
    | cons c rs => exact ⟨c, rs, rfl⟩
  simp [step_2_build_portfolio, hres, attemptsOf_eq, h0, step2_go, hemp]

/-- Witness for C3 at a concrete state and oracle. -/
theorem step2_empty_short_circuit_witness :
    step_2_build_portfolio
      { risk_level := "Low", industry := none, investment_amount := 1000,
        time_horizon := "1 year",
        research_results := some [⟨"Acme", "Low", "Solid"⟩] }
      (fun _ => LLMResult.resp (some { companies := [], total_allocation := 0 })) =
      { result := Except.ok
          { risk_level := "Low", industry := none, investment_amount := 1000,
            time_horizon := "1 year",
            research_results := some [⟨"Acme", "Low", "Solid"⟩],
            portfolio_plan := some (step2_fallback [⟨"Acme", "Low", "Solid"⟩]) }
        llm_calls := 1, fallback_calls := 1 } :=
  step2_empty_short_circuit _ _ _ _ rfl (by decide) rfl rfl

/-- Claim C7: when the stage-1 search capability fails, the whole
pipeline run aborts with that error, with zero LLM (generation) calls
made, so `research_results` is never written. -/
theorem search_unavailable_aborts (st : InvestmentAgentState)
    (o1 : Nat → LLMResult (List CompanyResearch))
    (o2 : Nat → LLMResult PortfolioPlan)
    (o3 o4 : Nat → LLMResult String) :
    plan st SearchOutcome.unavailable o1 o2 o3 o4
      = { result := Except.error "SearchUnavailable", llm_calls := 0 } ∧
    step_1_research_companies st SearchOutcome.unavailable o1
      = { result := Except.error "SearchUnavailable"
          llm_calls := 0, fallback_calls := 0 } :=
  ⟨rfl, rfl⟩

/-- Claim C8: each stage fails fast with an error, issuing no LLM call
and invoking no fallback, when its prerequisite state fields are absent:
stage 2 needs a non-empty `research_results`, stage 3 needs
`portfolio_plan`, stage 4 needs both `portfolio_plan` and
`investment_rationale`. -/
theorem preconditions_fail_fast (st2 st3 st4 : InvestmentAgentState)
    (o2 : Nat → LLMResult PortfolioPlan) (o3 o4 : Nat → LLMResult String)
    (h2 : st2.research_results = none ∨ st2.research_results = some [])
    (h3 : st3.portfolio_plan = none)
    (h4 : st4.portfolio_plan = none ∨ st4.investment_rationale = none) :
    step_2_build_portfolio st2 o2
      = { result := Except.error "No research results available for portfolio planning"
          llm_calls := 0, fallback_calls := 0 } ∧
    step_3_generate_rationale st3 o3
      = { result := Except.error "No portfolio plan available for rationale generation"
          llm_calls := 0, fallback_calls := 0 } ∧
    step_4_format_final_report st4 o4
      = { result := Except.error "Missing portfolio plan or investment rationale for final report"
          llm_calls := 0, fallback_calls := 0 } := by
  refine ⟨?_, ?_, ?_⟩
  · rcases h2 with h2 | h2 <;> simp [step_2_build_portfolio, h2]
  · simp [step_3_generate_rationale, h3]
  · rcases h4 with h4 | h4
    · simp [step_4_format_final_report, h4]
    · cases hp : st4.portfolio_plan <;>
        simp [step_4_format_final_report, hp, h4]

/-- Witness for C8 at concrete under-populated states. -/
theorem preconditions_fail_fast_witness :
    step_2_build_portfolio
        { risk_level := "Low", industry := none, investment_amount := 1,
          time_horizon := "1 year" } (fun _ => LLMResult.exn)
      = { result := Except.error "No research results available for portfolio planning"
          llm_calls := 0, fallback_calls := 0 } ∧
    step_3_generate_rationale
        { risk_level := "Low", industry := none, investment_amount := 1,
          time_horizon := "1 year" } (fun _ => LLMResult.exn)
      = { result := Except.error "No portfolio plan available for rationale generation"
          llm_calls := 0, fallback_calls := 0 } ∧
    step_4_format_final_report
        { risk_level := "Low", industry := none, investment_amount := 1,
          time_horizon := "1 year" } (fun _ => LLMResult.exn)
      = { result := Except.error "Missing portfolio plan or investment rationale for final report"
          llm_calls := 0, fallback_calls := 0 } :=
  preconditions_fail_fast _ _ _ _ _ _ (Or.inl rfl) rfl (Or.inl rfl)

/-- Claim C9: whenever stage 2 gets past its fail-fast guard (it issues
at least one LLM call), the state carries a non-empty `research_results`,
so the first-five slice that both fallback paths divide by has length at
least one — the division `100.0 / len(companies_to_allocate)` never
divides by zero. -/
theorem step2_divisor_positive (st : InvestmentAgentState)
    (oracle : Nat → LLMResult PortfolioPlan)
    (h : 1 ≤ (step_2_build_portfolio st oracle).llm_calls) :
    ∃ research, st.research_results = some research ∧ research ≠ [] ∧
      0 < (research.take 5).length := by
  cases hr : st.research_results with
  | none => rw [step_2_build_portfolio] at h; simp [hr] at h
  | some l =>
      cases l with
      | nil => rw [step_2_build_portfolio] at h; simp [hr] at h
      | cons c rs =>
          refine ⟨c :: rs, rfl, by simp, ?_⟩
          rw [List.length_take]
          simp

/-- Witness for C9 at a concrete state whose guard passes. -/
theorem step2_divisor_positive_witness :
    ∃ research,
      ({ risk_level := "Low", industry := none, investment_amount := 1,
         time_horizon := "1 year",
         research_results := some [⟨"Acme", "Low", "Solid"⟩] }
        : InvestmentAgentState).research_results = some research ∧
      research ≠ [] ∧ 0 < (research.take 5).length :=
  step2_divisor_positive _ (fun _ => LLMResult.exn) (by decide)

/-- Claim C10: stage 1 treats an empty-string industry exactly like an
absent one — for `industry = None` or `""`, both the search query and the
research system prompt are built with the default industry
`technology`. -/
theorem industry_default_truthy (st : InvestmentAgentState) (sr : String)
    (h : st.industry = none ∨ st.industry = some "") :
    step1_search_query st = "best technology stocks to invest 2025 top companies" ∧
    step1_system_prompt st sr
      = company_research_prompt_format "technology" st.risk_level st.time_horizon sr := by
  have hp : pyOr st.industry "technology" = "technology" := by
    rcases h with h | h <;> simp [pyOr, h]
  constructor
  · rw [step1_search_query, hp]; rfl
  · rw [step1_system_prompt, hp]

/-- Witness for C10 at a concrete empty-string-industry state. -/
theorem industry_default_truthy_witness :
    step1_search_query
        { risk_level := "Low", industry := some "", investment_amount := 1,
          time_horizon := "1 year" }
      = "best technology stocks to invest 2025 top companies" ∧
    step1_system_prompt
        { risk_level := "Low", industry := some "", investment_amount := 1,
          time_horizon := "1 year" } "results"
      = company_research_prompt_format "technology" "Low" "1 year" "results" :=
  industry_default_truthy _ "results" (Or.inr rfl)

/-- The stage-1 loop makes at most one LLM call per remaining attempt. -/
theorem step1_go_calls_le (st : InvestmentAgentState) :
    ∀ l : List (LLMResult (List CompanyResearch)),
      (step1_go st l).llm_calls ≤ l.length
  | [] => by simp [step1_go]
  | o :: rest => by
      have ih := step1_go_calls_le st rest
      cases o with
      | exn => simp [step1_go, StageRun.bump] <;> omega
      | resp v =>
          cases v with
          | none => simp [step1_go, StageRun.bump] <;> omega
          | some companies =>
              by_cases hc : companies.length > 0
              · simp [step1_go, hc] <;> omega
              · simp [step1_go, hc, StageRun.bump] <;> omega

/-- The stage-1 loop never invokes a fallback producer (none exists). -/
theorem step1_go_fb (st : InvestmentAgentState) :
    ∀ l : List (LLMResult (List CompanyResearch)),
      (step1_go st l).fallback_calls = 0
  | [] => by simp [step1_go]
  | o :: rest => by
      have ih := step1_go_fb st rest
      cases o with
      | exn => simpa [step1_go, StageRun.bump] using ih
      | resp v =>
          cases v with
          | none => simpa [step1_go, StageRun.bump] using ih
          | some companies =>
              by_cases hc : companies.length > 0
              · simp [step1_go, hc]
              · simpa [step1_go, hc, StageRun.bump] using ih

/-- A successful stage-1 loop run writes exactly the companies of some
accepted (non-`None`, non-empty) response from the attempt list, leaving
every other state field unchanged. -/
theorem step1_go_ok (st : InvestmentAgentState) :
    ∀ (l : List (LLMResult (List CompanyResearch))) (st' : InvestmentAgentState),
      (step1_go st l).result = Except.ok st' →
      ∃ cs, cs ≠ [] ∧ st' = { st with research_results := some cs } ∧
        LLMResult.resp (some cs) ∈ l
  | [], st', h => by simp [step1_go] at h
  | o :: rest, st', h => by
      cases o with
      | exn =>
          obtain ⟨cs, h1, h2, h3⟩ := step1_go_ok st rest st'
            (by simpa [step1_go, StageRun.bump] using h)
          exact ⟨cs, h1, h2, List.mem_cons_of_mem _ h3⟩
      | resp v =>
          cases v with
          | none =>
              obtain ⟨cs, h1, h2, h3⟩ := step1_go_ok st rest st'
                (by simpa [step1_go, StageRun.bump] using h)
              exact ⟨cs, h1, h2, List.mem_cons_of_mem _ h3⟩
          | some companies =>
              by_cases hc : companies.length > 0
              · simp [step1_go, hc] at h
                refine ⟨companies, ?_, h.symm, List.mem_cons_self _ _⟩
                intro hnil
                rw [hnil] at hc
                simp at hc
              · obtain ⟨cs, h1, h2, h3⟩ := step1_go_ok st rest st'
                  (by simpa [step1_go, hc, StageRun.bump] using h)
                exact ⟨cs, h1, h2, List.mem_cons_of_mem _ h3⟩

/-- The stage-2 loop makes at most one LLM call per remaining attempt. -/
theorem step2_go_calls_le (st : InvestmentAgentState)
    (research : List CompanyResearch) :
    ∀ (l : List (LLMResult PortfolioPlan)) (count : Nat),
      (step2_go st research count l).llm_calls ≤ l.length
  | [], _ => by simp [step2_go]
  | o :: rest, count => by
      have ih := step2_go_calls_le st research rest (count + 1)
      cases o with
      | exn =>
          by_cases hcnt : count = _MAX_LLM_RETRIES - 1
          · simp [step2_go, hcnt] <;> omega
          · simp [step2_go, hcnt, StageRun.bump] <;> omega
      | resp v =>
          cases v with
          | none => simp [step2_go, StageRun.bump] <;> omega
          | some p =>
              by_cases hc : p.companies.length > 0
              · simp [step2_go, hc] <;> omega
              · simp [step2_go, hc] <;> omega

/-- The stage-2 loop invokes the fallback producer at most once. -/
theorem step2_go_fb_le (st : InvestmentAgentState)
    (research : List CompanyResearch) :
    ∀ (l : List (LLMResult PortfolioPlan)) (count : Nat),
      (step2_go st research count l).fallback_calls ≤ 1
  | [], _ => by simp [step2_go]
  | o :: rest, count => by
      have ih := step2_go_fb_le st research rest (count + 1)
      cases o with
      | exn =>
          by_cases hcnt : count = _MAX_LLM_RETRIES - 1
          · simp [step2_go, hcnt]
          · simpa [step2_go, hcnt, StageRun.bump] using ih
      | resp v =>
          cases v with
          | none => simpa [step2_go, StageRun.bump] using ih
          | some p =>
              by_cases hc : p.companies.length > 0
              · simp [step2_go, hc]
              · simp [step2_go, hc]

/-- When the stage-2 loop does invoke the fallback producer, it is either
because some response carried an empty `companies` collection, or because
the final attempt (and hence every attempt) was consumed and the final
outcome was an exception. -/
theorem step2_go_fb_char (st : InvestmentAgentState)
    (research : List CompanyResearch) :
    ∀ (l : List (LLMResult PortfolioPlan)) (count : Nat),
      count + l.length = _MAX_LLM_RETRIES →
      (step2_go st research count l).fallback_calls = 1 →
      (∃ p, LLMResult.resp (some p) ∈ l ∧ p.companies = []) ∨
        (l.getLast? = some LLMResult.exn ∧
          (step2_go st research count l).llm_calls = l.length)
  | [], count, hcount, hfb => by simp [step2_go] at hfb
  | o :: rest, count, hcount, hfb => by
      have hcount' : (count + 1) + rest.length = _MAX_LLM_RETRIES := by
        simp only [List.length_cons] at hcount
        omega
      cases o with
      | resp v =>
          cases v with
          | some p =>
              by_cases hc : p.companies.length > 0
              · rw [step2_go] at hfb
                simp [hc] at hfb
              · exact Or.inl ⟨p, List.mem_cons_self _ _,
                  List.length_eq_zero.mp (by omega)⟩
          | none =>
              have hfb' : (step2_go st research (count + 1) rest).fallback_calls = 1 := by
                simpa [step2_go, StageRun.bump] using hfb
              rcases step2_go_fb_char st research rest (count + 1) hcount' hfb' with
                ⟨p, hp, hemp⟩ | ⟨hlast, hcalls⟩
              · exact Or.inl ⟨p, List.mem_cons_of_mem _ hp, hemp⟩
              · right
                obtain ⟨b, t, rfl⟩ : ∃ b t, rest = b :: t := by
                  cases rest with
                  | nil => simp at hlast
                  | cons b t => exact ⟨b, t, rfl⟩
                refine ⟨by simpa [List.getLast?_cons_cons] using hlast, ?_⟩
                simp only [step2_go, StageRun.bump_calls, List.length_cons] at hcalls ⊢
                omega
      | exn =>
          by_cases hcnt : count = _MAX_LLM_RETRIES - 1
          · right
            have hrest : rest = [] := by
              refine List.length_eq_zero.mp ?_
              simp only [List.length_cons] at hcount
              simp only [_MAX_LLM_RETRIES] at hcount hcnt
              omega
            subst hrest
            simp [step2_go, hcnt]
          · have hfb' : (step2_go st research (count + 1) rest).fallback_calls = 1 := by
              simpa [step2_go, hcnt, StageRun.bump] using hfb
            rcases step2_go_fb_char st research rest (count + 1) hcount' hfb' with
              ⟨p, hp, hemp⟩ | ⟨hlast, hcalls⟩
            · exact Or.inl ⟨p, List.mem_cons_of_mem _ hp, hemp⟩
            · right
              obtain ⟨b, t, rfl⟩ : ∃ b t, rest = b :: t := by
                cases rest with
                | nil => simp at hlast
                | cons b t => exact ⟨b, t, rfl⟩
              refine ⟨by simpa [List.getLast?_cons_cons] using hlast, ?_⟩
              simp only [step2_go, StageRun.bump_calls, List.length_cons] at hcalls ⊢
              rw [if_neg hcnt]
              simp only [StageRun.bump_calls]
              omega

/-- The stage-3 loop makes at most one LLM call per remaining attempt. -/
theorem step3_go_calls_le (st : InvestmentAgentState) (p : PortfolioPlan) :
    ∀ (l : List (LLMResult String)) (count : Nat),
      (step3_go st p count l).llm_calls ≤ l.length
  | [], _ => by simp [step3_go]
  | o :: rest, count => by
      have ih := step3_go_calls_le st p rest (count + 1)
      cases o with
      | exn =>
          by_cases hcnt : count = _MAX_LLM_RETRIES - 1
          · cases hsr : st.research_results <;> cases hpc : p.companies <;>
              simp [step3_go, hcnt, hsr, hpc]
          · simp only [step3_go, if_neg hcnt, StageRun.bump_calls, List.length_cons]
            omega
      | resp v =>
          cases v with
          | none =>
              simp only [step3_go, StageRun.bump_calls, List.length_cons]
              omega
          | some content =>
              by_cases hc : content = ""
              · simp only [step3_go, hc, ne_eq, not_true_eq_false, if_false,
                  StageRun.bump_calls, List.length_cons]
                omega
              · simp [step3_go, hc]

/-- The stage-3 loop invokes the fallback producer at most once. -/
theorem step3_go_fb_le (st : InvestmentAgentState) (p : PortfolioPlan) :
    ∀ (l : List (LLMResult String)) (count : Nat),
      (step3_go st p count l).fallback_calls ≤ 1
  | [], _ => by simp [step3_go]
  | o :: rest, count => by
      have ih := step3_go_fb_le st p rest (count + 1)
      cases o with
      | exn =>
          by_cases hcnt : count = _MAX_LLM_RETRIES - 1
          · cases hsr : st.research_results <;> cases hpc : p.companies <;>
              simp [step3_go, hcnt, hsr, hpc]
          · simpa only [step3_go, if_neg hcnt, StageRun.bump_fb] using ih
      | resp v =>
          cases v with
          | none => simpa only [step3_go, StageRun.bump_fb] using ih
          | some content =>
              by_cases hc : content = ""
              · simpa only [step3_go, hc, ne_eq, not_true_eq_false, if_false,
                  StageRun.bump_fb] using ih
              · simp [step3_go, hc]

/-- The stage-3 loop runs the fallback producer only when the final
attempt is consumed and raises. -/
theorem step3_go_fb_char (st : InvestmentAgentState) (p : PortfolioPlan) :
    ∀ (l : List (LLMResult String)) (count : Nat),
      count + l.length = _MAX_LLM_RETRIES →
      (step3_go st p count l).fallback_calls = 1 →
      l.getLast? = some LLMResult.exn ∧
        (step3_go st p count l).llm_calls = l.length
  | [], count, hcount, hfb => by simp [step3_go] at hfb
  | o :: rest, count, hcount, hfb => by
      have hcount' : (count + 1) + rest.length = _MAX_LLM_RETRIES := by
        simp only [List.length_cons] at hcount
        omega
      cases o with
      | resp v =>
          cases v with
          | some content =>
              by_cases hc : content = ""
              · have hfb' : (step3_go st p (count + 1) rest).fallback_calls = 1 := by
                  simpa only [step3_go, hc, ne_eq, not_true_eq_false, if_false,
                    StageRun.bump_fb] using hfb
                obtain ⟨hlast, hcalls⟩ := step3_go_fb_char st p rest (count + 1) hcount' hfb'
                obtain ⟨b, t, rfl⟩ : ∃ b t, rest = b :: t := by
                  cases rest with
                  | nil => simp at hlast
                  | cons b t => exact ⟨b, t, rfl⟩
                refine ⟨by simpa [List.getLast?_cons_cons] using hlast, ?_⟩
                simp only [step3_go, hc, ne_eq, not_true_eq_false, if_false,
                  StageRun.bump_calls, List.length_cons] at hcalls ⊢
                omega
              · rw [step3_go] at hfb
                simp [hc] at hfb
          | none =>
              have hfb' : (step3_go st p (count + 1) rest).fallback_calls = 1 := by
                simpa only [step3_go, StageRun.bump_fb] using hfb
              obtain ⟨hlast, hcalls⟩ := step3_go_fb_char st p rest (count + 1) hcount' hfb'
              obtain ⟨b, t, rfl⟩ : ∃ b t, rest = b :: t := by
                cases rest with
                | nil => simp at hlast
                | cons b t => exact ⟨b, t, rfl⟩
              refine ⟨by simpa [List.getLast?_cons_cons] using hlast, ?_⟩
              simp only [step3_go, StageRun.bump_calls, List.length_cons] at hcalls ⊢
              omega
      | exn =>
          by_cases hcnt : count = _MAX_LLM_RETRIES - 1
          · have hrest : rest = [] := by
              refine List.length_eq_zero.mp ?_
              simp only [List.length_cons] at hcount
              simp only [_MAX_LLM_RETRIES] at hcount hcnt
              omega
            subst hrest
            refine ⟨rfl, ?_⟩
            cases hsr : st.research_results <;> cases hpc : p.companies <;>
              simp [step3_go, hcnt, hsr, hpc]
          · have hfb' : (step3_go st p (count + 1) rest).fallback_calls = 1 := by
              simpa only [step3_go, if_neg hcnt, StageRun.bump_fb] using hfb
            obtain ⟨hlast, hcalls⟩ := step3_go_fb_char st p rest (count + 1) hcount' hfb'
            obtain ⟨b, t, rfl⟩ : ∃ b t, rest = b :: t := by
              cases rest with
              | nil => simp at hlast
              | cons b t => exact ⟨b, t, rfl⟩
            refine ⟨by simpa [List.getLast?_cons_cons] using hlast, ?_⟩
            simp only [step3_go, if_neg hcnt, StageRun.bump_calls,
              List.length_cons] at hcalls ⊢
            omega

/-- The stage-4 loop makes at most one LLM call per remaining attempt. -/
theorem step4_go_calls_le (st : InvestmentAgentState) (p : PortfolioPlan)
    (rationale : String) :
    ∀ (l : List (LLMResult String)) (count : Nat),
      (step4_go st p rationale count l).llm_calls ≤ l.length
  | [], _ => by simp [step4_go]
  | o :: rest, count => by
      have ih := step4_go_calls_le st p rationale rest (count + 1)
      cases o with
      | exn =>
          by_cases hcnt : count = _MAX_LLM_RETRIES - 1
          · cases hsr : st.research_results <;> cases hpc : p.companies <;>
              simp [step4_go, hcnt, hsr, hpc]
          · simp only [step4_go, if_neg hcnt, StageRun.bump_calls, List.length_cons]
            omega
      | resp v =>
          cases v with
          | none =>
              simp only [step4_go, StageRun.bump_calls, List.length_cons]
              omega
          | some content =>
              by_cases hc : content = ""
              · simp only [step4_go, hc, ne_eq, not_true_eq_false, if_false,
                  StageRun.bump_calls, List.length_cons]
                omega
              · simp [step4_go, hc]

/-- The stage-4 loop invokes the fallback producer at most once. -/
theorem step4_go_fb_le (st : InvestmentAgentState) (p : PortfolioPlan)
    (rationale : String) :
    ∀ (l : List (LLMResult String)) (count : Nat),
      (step4_go st p rationale count l).fallback_calls ≤ 1
  | [], _ => by simp [step4_go]
  | o :: rest, count => by
      have ih := step4_go_fb_le st p rationale rest (count + 1)
      cases o with
      | exn =>
          by_cases hcnt : count = _MAX_LLM_RETRIES - 1
          · cases hsr : st.research_results <;> cases hpc : p.companies <;>
              simp [step4_go, hcnt, hsr, hpc]
          · simpa only [step4_go, if_neg hcnt, StageRun.bump_fb] using ih
      | resp v =>
          cases v with
          | none => simpa only [step4_go, StageRun.bump_fb] using ih
          | some content =>
              by_cases hc : content = ""
              · simpa only [step4_go, hc, ne_eq, not_true_eq_false, if_false,
                  StageRun.bump_fb] using ih
              · simp [step4_go, hc]

/-- The stage-4 loop runs the fallback producer only when the final
attempt is consumed and raises. -/
theorem step4_go_fb_char (st : InvestmentAgentState) (p : PortfolioPlan)
    (rationale : String) :
    ∀ (l : List (LLMResult String)) (count : Nat),
      count + l.length = _MAX_LLM_RETRIES →
      (step4_go st p rationale count l).fallback_calls = 1 →
      l.getLast? = some LLMResult.exn ∧
        (step4_go st p rationale count l).llm_calls = l.length
  | [], count, hcount, hfb => by simp [step4_go] at hfb
  | o :: rest, count, hcount, hfb => by
      have hcount' : (count + 1) + rest.length = _MAX_LLM_RETRIES := by
        simp only [List.length_cons] at hcount
        omega
      cases o with
      | resp v =>
          cases v with
          | some content =>
              by_cases hc : content = ""
              · have hfb' : (step4_go st p rationale (count + 1) rest).fallback_calls = 1 := by
                  simpa only [step4_go, hc, ne_eq, not_true_eq_false, if_false,
                    StageRun.bump_fb] using hfb
                obtain ⟨hlast, hcalls⟩ :=
                  step4_go_fb_char st p rationale rest (count + 1) hcount' hfb'
                obtain ⟨b, t, rfl⟩ : ∃ b t, rest = b :: t := by
                  cases rest with
                  | nil => simp at hlast
                  | cons b t => exact ⟨b, t, rfl⟩
                refine ⟨by simpa [List.getLast?_cons_cons] using hlast, ?_⟩
                simp only [step4_go, hc, ne_eq, not_true_eq_false, if_false,
                  StageRun.bump_calls, List.length_cons] at hcalls ⊢
                omega
              · rw [step4_go] at hfb
                simp [hc] at hfb
          | none =>
              have hfb' : (step4_go st p rationale (count + 1) rest).fallback_calls = 1 := by
                simpa only [step4_go, StageRun.bump_fb] using hfb
              obtain ⟨hlast, hcalls⟩ :=
                step4_go_fb_char st p rationale rest (count + 1) hcount' hfb'
              obtain ⟨b, t, rfl⟩ : ∃ b t, rest = b :: t := by
                cases rest with
                | nil => simp at hlast
                | cons b t => exact ⟨b, t, rfl⟩
              refine ⟨by simpa [List.getLast?_cons_cons] using hlast, ?_⟩
              simp only [step4_go, StageRun.bump_calls, List.length_cons] at hcalls ⊢
              omega
      | exn =>
          by_cases hcnt : count = _MAX_LLM_RETRIES - 1
          · have hrest : rest = [] := by
              refine List.length_eq_zero.mp ?_
              simp only [List.length_cons] at hcount
              simp only [_MAX_LLM_RETRIES] at hcount hcnt
              omega
            subst hrest
            refine ⟨rfl, ?_⟩
            cases hsr : st.research_results <;> cases hpc : p.companies <;>
              simp [step4_go, hcnt, hsr, hpc]
          · have hfb' : (step4_go st p rationale (count + 1) rest).fallback_calls = 1 := by
              simpa only [step4_go, if_neg hcnt, StageRun.bump_fb] using hfb
            obtain ⟨hlast, hcalls⟩ :=
              step4_go_fb_char st p rationale rest (count + 1) hcount' hfb'
            obtain ⟨b, t, rfl⟩ : ∃ b t, rest = b :: t := by
              cases rest with
              | nil => simp at hlast
              | cons b t => exact ⟨b, t, rfl⟩
            refine ⟨by simpa [List.getLast?_cons_cons] using hlast, ?_⟩
            simp only [step4_go, if_neg hcnt, StageRun.bump_calls,
              List.length_cons] at hcalls ⊢
            omega

/-- Stage-1 retry bound: at most `_MAX_LLM_RETRIES` LLM calls and no
fallback-producer invocation, for any search outcome. -/
theorem step_1_retry_spec (st : InvestmentAgentState) (search : SearchOutcome)
    (oracle : Nat → LLMResult (List CompanyResearch)) :
    (step_1_research_companies st search oracle).llm_calls ≤ _MAX_LLM_RETRIES ∧
    (step_1_research_companies st search oracle).fallback_calls = 0 := by
  cases search with
  | unavailable => simp [step_1_research_companies]
  | results s =>
      refine ⟨?_, step1_go_fb st (attemptsOf oracle)⟩
      simpa [attemptsOf_length] using step1_go_calls_le st (attemptsOf oracle)

/-- Stage-2 retry bound and fallback discipline. -/
theorem step_2_retry_spec (st : InvestmentAgentState)
    (oracle : Nat → LLMResult PortfolioPlan) :
    (step_2_build_portfolio st oracle).llm_calls ≤ _MAX_LLM_RETRIES ∧
    (step_2_build_portfolio st oracle).fallback_calls ≤ 1 ∧
    ((step_2_build_portfolio st oracle).fallback_calls = 1 →
      (∃ i < _MAX_LLM_RETRIES, ∃ p, oracle i = LLMResult.resp (some p) ∧
          p.companies = []) ∨
        (oracle 2 = LLMResult.exn ∧
          (step_2_build_portfolio st oracle).llm_calls = _MAX_LLM_RETRIES)) := by
  cases hr : st.research_results with
  | none => simp [step_2_build_portfolio, hr]
  | some l =>
      cases l with
      | nil => simp [step_2_build_portfolio, hr]
      | cons c rs =>
          have hstep : step_2_build_portfolio st oracle
              = step2_go st (c :: rs) 0 (attemptsOf oracle) := by
            simp [step_2_build_portfolio, hr]
          rw [hstep]
          refine ⟨?_, step2_go_fb_le st (c :: rs) (attemptsOf oracle) 0, ?_⟩
          · simpa [attemptsOf_length] using
              step2_go_calls_le st (c :: rs) (attemptsOf oracle) 0
          · intro hfb
            rcases step2_go_fb_char st (c :: rs) (attemptsOf oracle) 0
                (by simp [attemptsOf_length]) hfb with
              ⟨p, hp, hemp⟩ | ⟨hlast, hcalls⟩
            · left
              rw [attemptsOf_eq] at hp
              simp only [List.mem_cons, List.mem_singleton, List.not_mem_nil,
                or_false] at hp
              rcases hp with hp | hp | hp
              · exact ⟨0, by decide, p, hp.symm, hemp⟩
              · exact ⟨1, by decide, p, hp.symm, hemp⟩
              · exact ⟨2, by decide, p, hp.symm, hemp⟩
            · right
              have h2 : (attemptsOf oracle).getLast? = some (oracle 2) := rfl
              rw [h2] at hlast
              exact ⟨Option.some.inj hlast, by
                rw [hcalls, attemptsOf_length]⟩

/-- Stage-3 retry bound and fallback discipline. -/
theorem step_3_retry_spec (st : InvestmentAgentState)
    (oracle : Nat → LLMResult String) :
    (step_3_generate_rationale st oracle).llm_calls ≤ _MAX_LLM_RETRIES ∧
    (step_3_generate_rationale st oracle).fallback_calls ≤ 1 ∧
    ((step_3_generate_rationale st oracle).fallback_calls = 1 →
      oracle 2 = LLMResult.exn ∧
        (step_3_generate_rationale st oracle).llm_calls = _MAX_LLM_RETRIES) := by
  cases hp : st.portfolio_plan with
  | none => simp [step_3_generate_rationale, hp]
  | some p =>
      have hstep : step_3_generate_rationale st oracle
          = step3_go st p 0 (attemptsOf oracle) := by
        simp [step_3_generate_rationale, hp]
      rw [hstep]
      refine ⟨?_, step3_go_fb_le st p (attemptsOf oracle) 0, ?_⟩
      · simpa [attemptsOf_length] using step3_go_calls_le st p (attemptsOf oracle) 0
      · intro hfb
        obtain ⟨hlast, hcalls⟩ := step3_go_fb_char st p (attemptsOf oracle) 0
          (by simp [attemptsOf_length]) hfb
        have h2 : (attemptsOf oracle).getLast? = some (oracle 2) := rfl
        rw [h2] at hlast
        exact ⟨Option.some.inj hlast, by rw [hcalls, attemptsOf_length]⟩

/-- Stage-4 retry bound and fallback discipline. -/
theorem step_4_retry_spec (st : InvestmentAgentState)
    (oracle : Nat → LLMResult String) :
    (step_4_format_final_report st oracle).llm_calls ≤ _MAX_LLM_RETRIES ∧
    (step_4_format_final_report st oracle).fallback_calls ≤ 1 ∧
    ((step_4_format_final_report st oracle).fallback_calls = 1 →
      oracle 2 = LLMResult.exn ∧
        (step_4_format_final_report st oracle).llm_calls = _MAX_LLM_RETRIES) := by
  cases hp : st.portfolio_plan with
  | none => simp [step_4_format_final_report, hp]
  | some p =>
      cases hrat : st.investment_rationale with
      | none => simp [step_4_format_final_report, hp, hrat]
      | some rationale =>
          by_cases hr0 : rationale = ""
          · simp [step_4_format_final_report, hp, hrat, hr0]
          · have hstep : step_4_format_final_report st oracle
                = step4_go st p rationale 0 (attemptsOf oracle) := by
              simp [step_4_format_final_report, hp, hrat, hr0]
            rw [hstep]
            refine ⟨?_, step4_go_fb_le st p rationale (attemptsOf oracle) 0, ?_⟩
            · simpa [attemptsOf_length] using
                step4_go_calls_le st p rationale (attemptsOf oracle) 0
            · intro hfb
              obtain ⟨hlast, hcalls⟩ := step4_go_fb_char st p rationale
                (attemptsOf oracle) 0 (by simp [attemptsOf_length]) hfb
              have h2 : (attemptsOf oracle).getLast? = some (oracle 2) := rfl
              rw [h2] at hlast
              exact ⟨Option.some.inj hlast, by rw [hcalls, attemptsOf_length]⟩

/-- Claim C4: in every stage invocation the generation capability is
called at most `_MAX_LLM_RETRIES = 3` times; stages 2–4 invoke the
fallback producer at most once, and only either after the final attempt
fails with an exception (having consumed all three calls) or — stage 2
only — on the empty-result short-circuit. -/
theorem retry_ceiling (st1 st2 st3 st4 : InvestmentAgentState)
    (search : SearchOutcome)
    (o1 : Nat → LLMResult (List CompanyResearch))
    (o2 : Nat → LLMResult PortfolioPlan)
    (o3 o4 : Nat → LLMResult String) :
    ((step_1_research_companies st1 search o1).llm_calls ≤ _MAX_LLM_RETRIES ∧
      (step_1_research_companies st1 search o1).fallback_calls = 0) ∧
    ((step_2_build_portfolio st2 o2).llm_calls ≤ _MAX_LLM_RETRIES ∧
      (step_2_build_portfolio st2 o2).fallback_calls ≤ 1 ∧
      ((step_2_build_portfolio st2 o2).fallback_calls = 1 →
        (∃ i < _MAX_LLM_RETRIES, ∃ p, o2 i = LLMResult.resp (some p) ∧
            p.companies = []) ∨
          (o2 2 = LLMResult.exn ∧
            (step_2_build_portfolio st2 o2).llm_calls = _MAX_LLM_RETRIES))) ∧
    ((step_3_generate_rationale st3 o3).llm_calls ≤ _MAX_LLM_RETRIES ∧
      (step_3_generate_rationale st3 o3).fallback_calls ≤ 1 ∧
      ((step_3_generate_rationale st3 o3).fallback_calls = 1 →
        o3 2 = LLMResult.exn ∧
          (step_3_generate_rationale st3 o3).llm_calls = _MAX_LLM_RETRIES)) ∧
    ((step_4_format_final_report st4 o4).llm_calls ≤ _MAX_LLM_RETRIES ∧
      (step_4_format_final_report st4 o4).fallback_calls ≤ 1 ∧
      ((step_4_format_final_report st4 o4).fallback_calls = 1 →
        o4 2 = LLMResult.exn ∧
          (step_4_format_final_report st4 o4).llm_calls = _MAX_LLM_RETRIES)) :=
  ⟨step_1_retry_spec st1 search o1, step_2_retry_spec st2 o2,
    step_3_retry_spec st3 o3, step_4_retry_spec st4 o4⟩

/-- Witness for C4 at concrete states and oracles: with an all-exception
oracle each stage makes at most three calls, stage 1 never invokes a
fallback, and stages 2-4 invoke it exactly once, after the third
(exception) attempt, having consumed all three calls. -/
theorem retry_ceiling_witness :
    ((step_1_research_companies
        { risk_level := "Low", industry := none, investment_amount := 1,
          time_horizon := "1 year" } (SearchOutcome.results "sr")
        (fun _ => LLMResult.exn)).llm_calls ≤ _MAX_LLM_RETRIES ∧
      (step_1_research_companies
        { risk_level := "Low", industry := none, investment_amount := 1,
          time_horizon := "1 year" } (SearchOutcome.results "sr")
        (fun _ => LLMResult.exn)).fallback_calls = 0) ∧
    ((step_2_build_portfolio
        { risk_level := "Low", industry := none, investment_amount := 1,
          time_horizon := "1 year",
          research_results := some [⟨"Acme", "Low", "Solid"⟩] }
        (fun _ => LLMResult.exn)).llm_calls ≤ _MAX_LLM_RETRIES ∧
      (step_2_build_portfolio
        { risk_level := "Low", industry := none, investment_amount := 1,
          time_horizon := "1 year",
          research_results := some [⟨"Acme", "Low", "Solid"⟩] }
        (fun _ => LLMResult.exn)).fallback_calls ≤ 1 ∧
      ((∃ i < _MAX_LLM_RETRIES, ∃ p,
          (fun _ => LLMResult.exn : Nat → LLMResult PortfolioPlan) i
            = LLMResult.resp (some p) ∧ p.companies = []) ∨
        ((fun _ => LLMResult.exn : Nat → LLMResult PortfolioPlan) 2
            = LLMResult.exn ∧
          (step_2_build_portfolio
            { risk_level := "Low", industry := none, investment_amount := 1,
              time_horizon := "1 year",
              research_results := some [⟨"Acme", "Low", "Solid"⟩] }
            (fun _ => LLMResult.exn)).llm_calls = _MAX_LLM_RETRIES))) ∧
    ((step_3_generate_rationale
        { risk_level := "Low", industry := none, investment_amount := 1,
          time_horizon := "1 year",
          research_results := some [⟨"Acme", "Low", "Solid"⟩],
          portfolio_plan := some
            { companies := [⟨"Acme", 100, some "6-12 months"⟩]
              total_allocation := 100 } }
        (fun _ => LLMResult.exn)).llm_calls ≤ _MAX_LLM_RETRIES ∧
      (step_3_generate_rationale
        { risk_level := "Low", industry := none, investment_amount := 1,
          time_horizon := "1 year",
          research_results := some [⟨"Acme", "Low", "Solid"⟩],
          portfolio_plan := some
            { companies := [⟨"Acme", 100, some "6-12 months"⟩]
              total_allocation := 100 } }
        (fun _ => LLMResult.exn)).fallback_calls ≤ 1 ∧
      ((fun _ => LLMResult.exn : Nat → LLMResult String) 2 = LLMResult.exn ∧
        (step_3_generate_rationale
          { risk_level := "Low", industry := none, investment_amount := 1,
            time_horizon := "1 year",
            research_results := some [⟨"Acme", "Low", "Solid"⟩],
            portfolio_plan := some
              { companies := [⟨"Acme", 100, some "6-12 months"⟩]
                total_allocation := 100 } }
          (fun _ => LLMResult.exn)).llm_calls = _MAX_LLM_RETRIES)) ∧
    ((step_4_format_final_report
        { risk_level := "Low", industry := none, investment_amount := 1,
          time_horizon := "1 year",
          research_results := some [⟨"Acme", "Low", "Solid"⟩],
          portfolio_plan := some
            { companies := [⟨"Acme", 100, some "6-12 months"⟩]
              total_allocation := 100 },
          investment_rationale := some "r" }
        (fun _ => LLMResult.exn)).llm_calls ≤ _MAX_LLM_RETRIES ∧
      (step_4_format_final_report
        { risk_level := "Low", industry := none, investment_amount := 1,
          time_horizon := "1 year",
          research_results := some [⟨"Acme", "Low", "Solid"⟩],
          portfolio_plan := some
            { companies := [⟨"Acme", 100, some "6-12 months"⟩]
              total_allocation := 100 },
          investment_rationale := some "r" }
        (fun _ => LLMResult.exn)).fallback_calls ≤ 1 ∧
      ((fun _ => LLMResult.exn : Nat → LLMResult String) 2 = LLMResult.exn ∧
        (step_4_format_final_report
          { risk_level := "Low", industry := none, investment_amount := 1,
            time_horizon := "1 year",
            research_results := some [⟨"Acme", "Low", "Solid"⟩],
            portfolio_plan := some
              { companies := [⟨"Acme", 100, some "6-12 months"⟩]
                total_allocation := 100 },
            investment_rationale := some "r" }
          (fun _ => LLMResult.exn)).llm_calls = _MAX_LLM_RETRIES)) := by
  obtain ⟨w1, ⟨w2a, w2b, w2c⟩, ⟨w3a, w3b, w3c⟩, ⟨w4a, w4b, w4c⟩⟩ :=
    retry_ceiling
      { risk_level := "Low", industry := none, investment_amount := 1,
        time_horizon := "1 year" }
      { risk_level := "Low", industry := none, investment_amount := 1,
        time_horizon := "1 year",
        research_results := some [⟨"Acme", "Low", "Solid"⟩] }
      { risk_level := "Low", industry := none, investment_amount := 1,
        time_horizon := "1 year",
        research_results := some [⟨"Acme", "Low", "Solid"⟩],
        portfolio_plan := some
          { companies := [⟨"Acme", 100, some "6-12 months"⟩]
            total_allocation := 100 } }
      { risk_level := "Low", industry := none, investment_amount := 1,
        time_horizon := "1 year",
        research_results := some [⟨"Acme", "Low", "Solid"⟩],
        portfolio_plan := some
          { companies := [⟨"Acme", 100, some "6-12 months"⟩]
            total_allocation := 100 },
        investment_rationale := some "r" }
      (SearchOutcome.results "sr")
      (fun _ => LLMResult.exn) (fun _ => LLMResult.exn)
      (fun _ => LLMResult.exn) (fun _ => LLMResult.exn)
  exact ⟨w1, ⟨w2a, w2b, w2c rfl⟩, ⟨w3a, w3b, w3c rfl⟩, ⟨w4a, w4b, w4c rfl⟩⟩

/-- Counterexample to claim C1: in stage 3, three attempts that all
return empty content fail to yield an accepted result, yet no fallback is
produced — the stage raises the post-loop RuntimeError, so that error is
reachable in a stage past stage 1. -/
theorem runtime_error_reachable_cex :
    step_3_generate_rationale
      { risk_level := "Medium", industry := some "tech",
        investment_amount := 10000, time_horizon := "1 year",
        research_results := some [⟨"Acme", "Low", "Solid"⟩],
        portfolio_plan := some
          { companies := [⟨"Acme", 100, some "6-12 months"⟩]
            total_allocation := 100 } }
      (fun _ => LLMResult.resp (some ""))
      = { result := Except.error "Failed to generate investment rationale after %d attempts."
          llm_calls := 3, fallback_calls := 0 } := by
  rfl

/-- Claim C1 (amended): stages 2–4 convert retry exhaustion into a
deterministic fallback result whenever the final attempt fails with a
raised exception (earlier attempts having failed by exception or `None`
response, or — stages 3–4 — empty content); but when the attempts fail
without a final exception the loop exhausts and the post-loop
RuntimeError is raised, so that error is reachable. -/
theorem fallback_on_final_exception
    (st2 st3 st4 : InvestmentAgentState)
    (research2 research3 research4 : List CompanyResearch)
    (plan3 plan4 : PortfolioPlan) (rat4 : String)
    (o2 : Nat → LLMResult PortfolioPlan) (o3 o4 : Nat → LLMResult String) :
    ((st2.research_results = some research2 → research2 ≠ [] →
      (o2 0 = LLMResult.exn ∨ o2 0 = LLMResult.resp none) →
      (o2 1 = LLMResult.exn ∨ o2 1 = LLMResult.resp none) →
      o2 2 = LLMResult.exn →
      step_2_build_portfolio st2 o2
        = { result := Except.ok
              { st2 with portfolio_plan := some (step2_fallback research2) }
            llm_calls := 3, fallback_calls := 1 })) ∧
    ((st3.portfolio_plan = some plan3 → st3.research_results = some research3 →
      (o3 0 = LLMResult.exn ∨ o3 0 = LLMResult.resp none ∨
        o3 0 = LLMResult.resp (some "")) →
      (o3 1 = LLMResult.exn ∨ o3 1 = LLMResult.resp none ∨
        o3 1 = LLMResult.resp (some "")) →
      o3 2 = LLMResult.exn →
      step_3_generate_rationale st3 o3
        = { result := Except.ok
              { st3 with
                  investment_rationale := some (step3_fallback st3 research3 plan3) }
            llm_calls := 3, fallback_calls := 1 })) ∧
    ((st4.portfolio_plan = some plan4 → st4.research_results = some research4 →
      st4.investment_rationale = some rat4 → rat4 ≠ "" →
      (o4 0 = LLMResult.exn ∨ o4 0 = LLMResult.resp none ∨
        o4 0 = LLMResult.resp (some "")) →
      (o4 1 = LLMResult.exn ∨ o4 1 = LLMResult.resp none ∨
        o4 1 = LLMResult.resp (some "")) →
      o4 2 = LLMResult.exn →
      step_4_format_final_report st4 o4
        = { result := Except.ok
              { st4 with
                  investment_plan := some (step4_fallback st4 research4 plan4 rat4) }
            llm_calls := 3, fallback_calls := 1 })) := by
  refine ⟨?_, ?_, ?_⟩
  · intro h2r h2ne h20 h21 h22
    obtain ⟨c, rs, rfl⟩ : ∃ c rs, research2 = c :: rs := by
      cases research2 with
      | nil => exact absurd rfl h2ne
      | cons c rs => exact ⟨c, rs, rfl⟩
    rcases h20 with h20 | h20 <;> rcases h21 with h21 | h21 <;>
      simp [step_2_build_portfolio, h2r, attemptsOf_eq, step2_go,
        h20, h21, h22, _MAX_LLM_RETRIES, StageRun.bump]
  · intro h3p h3r h30 h31 h32
    rcases h30 with h30 | h30 | h30 <;> rcases h31 with h31 | h31 | h31 <;>
      simp [step_3_generate_rationale, h3p, h3r, attemptsOf_eq, step3_go,
        h30, h31, h32, _MAX_LLM_RETRIES, StageRun.bump]
  · intro h4p h4r h4rat hrat h40 h41 h42
    rcases h40 with h40 | h40 | h40 <;> rcases h41 with h41 | h41 | h41 <;>
      simp [step_4_format_final_report, h4p, h4r, h4rat, hrat, attemptsOf_eq,
        step4_go, h40, h41, h42, _MAX_LLM_RETRIES, StageRun.bump]

/-- Witness for the amended C1 at concrete states with all-exception
oracles. -/
theorem fallback_on_final_exception_witness :
    step_2_build_portfolio
        { risk_level := "Low", industry := none, investment_amount := 1000,
          time_horizon := "1 year",
          research_results := some [⟨"Acme", "Low", "Solid"⟩] }
        (fun _ => LLMResult.exn)
      = { result := Except.ok
            { risk_level := "Low", industry := none, investment_amount := 1000,
              time_horizon := "1 year",
              research_results := some [⟨"Acme", "Low", "Solid"⟩],
              portfolio_plan := some (step2_fallback [⟨"Acme", "Low", "Solid"⟩]) }
          llm_calls := 3, fallback_calls := 1 } ∧
    step_3_generate_rationale
        { risk_level := "Low", industry := none, investment_amount := 1000,
          time_horizon := "1 year",
          research_results := some [⟨"Acme", "Low", "Solid"⟩],
          portfolio_plan := some
            { companies := [⟨"Acme", 100, some "6-12 months"⟩]
              total_allocation := 100 } }
        (fun _ => LLMResult.exn)
      = { result := Except.ok
            { risk_level := "Low", industry := none, investment_amount := 1000,
              time_horizon := "1 year",
              research_results := some [⟨"Acme", "Low", "Solid"⟩],
              portfolio_plan := some
                { companies := [⟨"Acme", 100, some "6-12 months"⟩]
                  total_allocation := 100 },
              investment_rationale := some
                (step3_fallback
                  { risk_level := "Low", industry := none,
                    investment_amount := 1000, time_horizon := "1 year",
                    research_results := some [⟨"Acme", "Low", "Solid"⟩],
                    portfolio_plan := some
                      { companies := [⟨"Acme", 100, some "6-12 months"⟩]
                        total_allocation := 100 } }
                  [⟨"Acme", "Low", "Solid"⟩]
                  { companies := [⟨"Acme", 100, some "6-12 months"⟩]
                    total_allocation := 100 }) }
          llm_calls := 3, fallback_calls := 1 } ∧
    step_4_format_final_report
        { risk_level := "Low", industry := none, investment_amount := 1000,
          time_horizon := "1 year",
          research_results := some [⟨"Acme", "Low", "Solid"⟩],
          portfolio_plan := some
            { companies := [⟨"Acme", 100, some "6-12 months"⟩]
              total_allocation := 100 },
          investment_rationale := some "r" }
        (fun _ => LLMResult.exn)
      = { result := Except.ok
            { risk_level := "Low", industry := none, investment_amount := 1000,
              time_horizon := "1 year",
              research_results := some [⟨"Acme", "Low", "Solid"⟩],
              portfolio_plan := some
                { companies := [⟨"Acme", 100, some "6-12 months"⟩]
                  total_allocation := 100 },
              investment_rationale := some "r",
              investment_plan := some
                (step4_fallback
                  { risk_level := "Low", industry := none,
                    investment_amount := 1000, time_horizon := "1 year",
                    research_results := some [⟨"Acme", "Low", "Solid"⟩],
                    portfolio_plan := some
                      { companies := [⟨"Acme", 100, some "6-12 months"⟩]
                        total_allocation := 100 },
                    investment_rationale := some "r" }
                  [⟨"Acme", "Low", "Solid"⟩]
                  { companies := [⟨"Acme", 100, some "6-12 months"⟩]
                    total_allocation := 100 } "r") }
          llm_calls := 3, fallback_calls := 1 } := by
  obtain ⟨h2, h3, h4⟩ := fallback_on_final_exception
    { risk_level := "Low", industry := none, investment_amount := 1000,
      time_horizon := "1 year",
      research_results := some [⟨"Acme", "Low", "Solid"⟩] }
    { risk_level := "Low", industry := none, investment_amount := 1000,
      time_horizon := "1 year",
      research_results := some [⟨"Acme", "Low", "Solid"⟩],
      portfolio_plan := some
        { companies := [⟨"Acme", 100, some "6-12 months"⟩]
          total_allocation := 100 } }
    { risk_level := "Low", industry := none, investment_amount := 1000,
      time_horizon := "1 year",
      research_results := some [⟨"Acme", "Low", "Solid"⟩],
      portfolio_plan := some
        { companies := [⟨"Acme", 100, some "6-12 months"⟩]
          total_allocation := 100 },
      investment_rationale := some "r" }
    [⟨"Acme", "Low", "Solid"⟩] [⟨"Acme", "Low", "Solid"⟩]
    [⟨"Acme", "Low", "Solid"⟩]
    { companies := [⟨"Acme", 100, some "6-12 months"⟩]
      total_allocation := 100 }
    { companies := [⟨"Acme", 100, some "6-12 months"⟩]
      total_allocation := 100 } "r"
    (fun _ => LLMResult.exn) (fun _ => LLMResult.exn) (fun _ => LLMResult.exn)
  exact ⟨h2 rfl (by decide) (Or.inl rfl) (Or.inl rfl) rfl,
    h3 rfl rfl (Or.inl rfl) (Or.inl rfl) rfl,
    h4 rfl rfl rfl (by decide) (Or.inl rfl) (Or.inl rfl) rfl⟩

/-- Counterexample to claim C5: in the stage-3 fallback, a portfolio
allocation (`Zeta Corp`) with no exact-name match in `research_results`
contributes no paragraph at all — the resulting rationale is exactly the
stripped header, with no occurrence of the company name — rather than a
degraded paragraph omitting only the risk and explanation fields. -/
theorem step3_no_degraded_paragraph_cex :
    step_3_generate_rationale
      { risk_level := "Medium", industry := some "tech",
        investment_amount := 10000, time_horizon := "1 year",
        research_results := some [⟨"Acme", "Low", "Solid"⟩],
        portfolio_plan := some
          { companies := [⟨"Zeta Corp", 50, some "6-12 months"⟩]
            total_allocation := 100 } }
      (fun _ => LLMResult.exn)
      = { result := Except.ok
            { risk_level := "Medium", industry := some "tech",
              investment_amount := 10000, time_horizon := "1 year",
              research_results := some [⟨"Acme", "Low", "Solid"⟩],
              portfolio_plan := some
                { companies := [⟨"Zeta Corp", 50, some "6-12 months"⟩]
                  total_allocation := 100 },
              investment_rationale := some "## Investment Rationale\n\nBased on our analysis, we have selected the following companies for your medium-risk investment portfolio of $10,000.00 over a 1 year timeframe:" }
          llm_calls := 3, fallback_calls := 1 } ∧
    subOccurs ("Zeta Corp").data
        ("## Investment Rationale\n\nBased on our analysis, we have selected the following companies for your medium-risk investment portfolio of $10,000.00 over a 1 year timeframe:").data
      = false :=
  ⟨rfl, by decide⟩

/-- Claim C5 (amended): in the stage-3 fallback, allocations whose
`company_name` exactly matches a research entry contribute a paragraph
joining the allocation with that entry's explanation; allocations with no
match contribute nothing at all (the empty string), so they are silently
omitted from the rationale rather than given a degraded paragraph. -/
theorem step3_fallback_paragraph_spec (st : InvestmentAgentState)
    (research : List CompanyResearch) (p : PortfolioPlan)
    (a : PortfolioAllocation) (oracle : Nat → LLMResult String)
    (hp : st.portfolio_plan = some p) (hr : st.research_results = some research)
    (ho : ∀ i, oracle i = LLMResult.exn) :
    (step_3_generate_rationale st oracle).result
      = Except.ok { st with
          investment_rationale := some (step3_fallback st research p) } ∧
    step3_fallback st research p
      = pyStrip (step3_header st
          ++ String.join (p.companies.map (step3_paragraph research))) ∧
    (research.find? (fun c => c.name == a.company_name) = none →
      step3_paragraph research a = "") ∧
    (∀ rd, research.find? (fun c => c.name == a.company_name) = some rd →
      step3_paragraph research a
        = "\n### " ++ a.company_name ++ " ("
            ++ pyFloat a.allocation_percentage ++ "% allocation)\n"
            ++ rd.explanation ++ "\n\n") := by
  refine ⟨?_, rfl, ?_, ?_⟩
  · simp [step_3_generate_rationale, hp, hr, attemptsOf_eq, step3_go,
      ho 0, ho 1, ho 2, _MAX_LLM_RETRIES, StageRun.bump]
  · intro h
    simp [step3_paragraph, h]
  · intro rd h
    simp [step3_paragraph, h]

/-- Witness for the amended C5 at a concrete state with one unmatched
allocation: the stage returns the fallback rationale and the unmatched
allocation contributes the empty string. -/
theorem step3_fallback_paragraph_spec_witness :
    (step_3_generate_rationale
        { risk_level := "Medium", industry := some "tech",
          investment_amount := 10000, time_horizon := "1 year",
          research_results := some [⟨"Acme", "Low", "Solid"⟩],
          portfolio_plan := some
            { companies := [⟨"Zeta Corp", 50, some "6-12 months"⟩]
              total_allocation := 100 } }
        (fun _ => LLMResult.exn)).result
      = Except.ok
          { risk_level := "Medium", industry := some "tech",
            investment_amount := 10000, time_horizon := "1 year",
            research_results := some [⟨"Acme", "Low", "Solid"⟩],
            portfolio_plan := some
              { companies := [⟨"Zeta Corp", 50, some "6-12 months"⟩]
                total_allocation := 100 },
            investment_rationale := some
              (step3_fallback
                { risk_level := "Medium", industry := some "tech",
                  investment_amount := 10000, time_horizon := "1 year",
                  research_results := some [⟨"Acme", "Low", "Solid"⟩],
                  portfolio_plan := some
                    { companies := [⟨"Zeta Corp", 50, some "6-12 months"⟩]
                      total_allocation := 100 } }
                [⟨"Acme", "Low", "Solid"⟩]
                { companies := [⟨"Zeta Corp", 50, some "6-12 months"⟩]
                  total_allocation := 100 }) } ∧
    step3_fallback
        { risk_level := "Medium", industry := some "tech",
          investment_amount := 10000, time_horizon := "1 year",
          research_results := some [⟨"Acme", "Low", "Solid"⟩],
          portfolio_plan := some
            { companies := [⟨"Zeta Corp", 50, some "6-12 months"⟩]
              total_allocation := 100 } }
        [⟨"Acme", "Low", "Solid"⟩]
        { companies := [⟨"Zeta Corp", 50, some "6-12 months"⟩]
          total_allocation := 100 }
      = pyStrip (step3_header
          { risk_level := "Medium", industry := some "tech",
            investment_amount := 10000, time_horizon := "1 year",
            research_results := some [⟨"Acme", "Low", "Solid"⟩],
            portfolio_plan := some
              { companies := [⟨"Zeta Corp", 50, some "6-12 months"⟩]
                total_allocation := 100 } }
          ++ String.join
              (([⟨"Zeta Corp", 50, some "6-12 months"⟩]
                  : List PortfolioAllocation).map
                (step3_paragraph [⟨"Acme", "Low", "Solid"⟩]))) ∧
    step3_paragraph [⟨"Acme", "Low", "Solid"⟩]
        ⟨"Zeta Corp", 50, some "6-12 months"⟩ = "" := by
  obtain ⟨w1, w2, w3, _⟩ := step3_fallback_paragraph_spec
    { risk_level := "Medium", industry := some "tech",
      investment_amount := 10000, time_horizon := "1 year",
      research_results := some [⟨"Acme", "Low", "Solid"⟩],
      portfolio_plan := some
        { companies := [⟨"Zeta Corp", 50, some "6-12 months"⟩]
          total_allocation := 100 } }
    [⟨"Acme", "Low", "Solid"⟩]
    { companies := [⟨"Zeta Corp", 50, some "6-12 months"⟩]
      total_allocation := 100 }
    ⟨"Zeta Corp", 50, some "6-12 months"⟩
    (fun _ => LLMResult.exn) rfl rfl (fun _ => rfl)
  exact ⟨w1, w2, w3 rfl⟩

/-- Counterexample to claim C6: stage 1 accepts a structured response
whose single entry has an empty `name` and an empty `explanation` — the
stage succeeds and writes that entry, so success does not guarantee
non-empty `name`/`explanation` fields. -/
theorem step1_accepts_empty_fields_cex :
    step_1_research_companies
        { risk_level := "Low", industry := none, investment_amount := 1,
          time_horizon := "1 year" }
        (SearchOutcome.results "sr")
        (fun _ => LLMResult.resp (some [⟨"", "Low", ""⟩]))
      = { result := Except.ok
            { risk_level := "Low", industry := none, investment_amount := 1,
              time_horizon := "1 year",
              research_results := some [⟨"", "Low", ""⟩] }
          llm_calls := 1, fallback_calls := 0 } ∧
    ¬ (∀ c ∈ ([⟨"", "Low", ""⟩] : List CompanyResearch),
        c.name ≠ "" ∧ c.explanation ≠ "") :=
  ⟨rfl, by decide⟩

/-- Claim C6 (amended): whenever stage 1 returns successfully, it writes
`research_results` as exactly the (non-empty) companies list of some
accepted structured response, in the response's order, leaving all other
fields unchanged; field-level non-emptiness of `name` and `explanation`
is not checked. -/
theorem step1_success_spec (st : InvestmentAgentState) (search : SearchOutcome)
    (oracle : Nat → LLMResult (List CompanyResearch))
    (st' : InvestmentAgentState)
    (h : (step_1_research_companies st search oracle).result = Except.ok st') :
    ∃ cs, cs ≠ [] ∧ st' = { st with research_results := some cs } ∧
      ∃ i < _MAX_LLM_RETRIES, oracle i = LLMResult.resp (some cs) := by
  cases search with
  | unavailable => simp [step_1_research_companies] at h
  | results s =>
      obtain ⟨cs, h1, h2, h3⟩ := step1_go_ok st (attemptsOf oracle) st'
        (by simpa [step_1_research_companies] using h)
      refine ⟨cs, h1, h2, ?_⟩
      rw [attemptsOf_eq] at h3
      simp only [List.mem_cons, List.not_mem_nil, or_false] at h3
      rcases h3 with h3 | h3 | h3
      · exact ⟨0, by decide, h3.symm⟩
      · exact ⟨1, by decide, h3.symm⟩
      · exact ⟨2, by decide, h3.symm⟩

/-- Witness for the amended C6 at a concrete successful run. -/
theorem step1_success_spec_witness :
    ∃ cs, cs ≠ [] ∧
      ({ risk_level := "Low", industry := none, investment_amount := 1,
         time_horizon := "1 year",
         research_results := some [⟨"Acme", "Low", "Good"⟩] }
        : InvestmentAgentState)
        = { ({ risk_level := "Low", industry := none, investment_amount := 1,
               time_horizon := "1 year" } : InvestmentAgentState) with
            research_results := some cs } ∧
      ∃ i < _MAX_LLM_RETRIES,
        (fun _ => LLMResult.resp (some [⟨"Acme", "Low", "Good"⟩])
          : Nat → LLMResult (List CompanyResearch)) i
          = LLMResult.resp (some cs) :=
  step1_success_spec _ (SearchOutcome.results "sr") _ _ rfl
